import Mathlib

/-!
Verification of the Animal-ETL-Service pipeline (`src/etl/utils/etl_service.py`)
against its natural-language specification.

The development is a shallow embedding of the ETL core:
* a model of the Python values the pipeline manipulates (`PyVal`, records as
  ordered association lists, Python truthiness, `str.strip` / `str.split`);
* an exact model of the `born_at` normalization (`datetime.fromtimestamp`
  with `tz=pytz.UTC` and `datetime.isoformat`), via the standard
  civil-from-days / days-from-civil calendar algorithms, at microsecond
  resolution (CPython performs the `timestamp / 1000` division in floating
  point; here it is modelled exactly, which agrees at microsecond
  granularity for all in-range millisecond timestamps);
* attempt-level models of `get_animal_details` / `post_animals_batch`
  (how each maps a transport outcome to a raised exception) together with a
  model of the `tenacity` retry loop and its
  `retry_if_exception_type((RequestException, HTTPError))` predicate;
* a model of `fetch_paginated_animals` (fuel-based pagination loop);
* a run-level model of `run_etl_process` in which the network is an
  oracle (`Env`) giving the post-retry outcome of each detail fetch and of
  each batch POST.  Database persistence (`save_animals_to_db`,
  `ETLProcessingLog` writes) is I/O outside the embedding; the run log's
  `status` and `process_end` fields and the `APIErrorLog` rows are kept in
  the state because claims speak about them.  Timestamps (`timezone.now()`)
  are elided: `ETLStats.end_time` is modelled by a flag, and the timestamp
  prefix that `ETLStats.add_error` puts in front of each error string is
  dropped.
-/

/-- Model of the Python/JSON values the pipeline interprets.  Floats are not
modelled (the claims about `born_at` concern integer timestamps); a numeric
`born_at` is an `int`. -/
inductive PyVal where
  | null
  | int (n : Int)
  | str (s : String)
  | list (xs : List PyVal)

/-- A raw or transformed animal record: a Python dict as an ordered
association list (JSON objects have distinct keys; insertion order is
preserved, as in Python dicts). -/
abbrev AnimalRec := List (String × PyVal)

/-- Python truthiness (`bool(v)`) for the modelled values. -/
def pyTruthy : PyVal → Bool
  | .null => false
  | .int n => n ≠ 0
  | .str s => s ≠ ""
  | .list xs => ¬ xs.isEmpty

/-- `d[k]` lookup (`k in d` plus access): first binding of the key. -/
def pyDictGet : AnimalRec → String → Option PyVal
  | [], _ => Option.none
  | (k0, v) :: rest, k => if k0 = k then some v else pyDictGet rest k

/-- `d[k] = v` assignment: replaces the value at an existing key in place,
otherwise appends the new binding (Python dict insertion-order semantics). -/
def pySetItem : AnimalRec → String → PyVal → AnimalRec
  | [], k, v => [(k, v)]
  | (k0, v0) :: rest, k, v =>
      if k0 = k then (k0, v) :: rest else (k0, v0) :: pySetItem rest k v

/-- The ASCII whitespace characters that `str.strip()` removes (the Unicode
extras are irrelevant to the data in this pipeline). -/
def pyIsSpace (c : Char) : Bool :=
  c = ' ' ∨ c = '\t' ∨ c = '\n' ∨ c = '\r' ∨ c = '\x0b' ∨ c = '\x0c'

/-- `str.strip()` on the underlying character list. -/
def pyStripList (l : List Char) : List Char :=
  ((l.dropWhile pyIsSpace).reverse.dropWhile pyIsSpace).reverse

/-- `str.strip()`. -/
def pyStrip (s : String) : String :=
  String.mk (pyStripList s.data)

/-- Python `str.split(sep)` for a one-character separator: every occurrence
of the separator starts a new piece, empty pieces are kept, and the empty
string splits to `[""]`. -/
def pySplitAux (sep : Char) : List Char → List Char → List String
  | [], cur => [String.mk cur.reverse]
  | c :: rest, cur =>
      if c = sep then String.mk cur.reverse :: pySplitAux sep rest []
      else pySplitAux sep rest (c :: cur)

/-- `s.split(",")`. -/
def pySplitComma (s : String) : List String :=
  pySplitAux ',' s.data []

/-- `transformed["friends"].split(",")` then the comprehension
`[f.strip() for f in ... if f.strip()]`: keep the pieces whose stripped form
is non-empty, stripped, in order. -/
def pyFriendsList (s : String) : List String :=
  ((pySplitComma s).filter (fun f => pyStrip f ≠ "")).map (fun f => pyStrip f)

/-- The `friends` sequence as the specification words it, independently of
the code: split on commas, trim whitespace around each piece, then drop the
pieces that are empty after trimming (order preserved).  Compared against
the code's computation in the C4 theorem. -/
def specFriendsSeq (s : String) : List String :=
  ((pySplitComma s).map pyStrip).filter (fun x => x ≠ "")

/-! ### Calendar arithmetic for `datetime.fromtimestamp(_, tz=pytz.UTC)`

`civilFromDays` / `daysFromCivil` are the standard proleptic-Gregorian
conversions (Hinnant's algorithms, the same ones CPython's `datetime`
implements via `_ymd2ord`/`_ord2ymd`).  Lean's `Int` `/` is Euclidean
division, which coincides with the C truncating division the algorithms
were written for whenever the numerator is non-negative — the case for
every day number in the representable range (years 1..9999, for which
`z + 719468 ≥ 0`).  For pre-era inputs the two divisions differ, but every
such input makes the computed year land at or below 0 and is rejected by
the range check in `py_fromtimestamp_micro`, exactly where CPython's
`fromtimestamp` raises. -/

/-- Days since 1970-01-01 to `(year, month, day)` in the proleptic Gregorian
calendar. -/
def civilFromDays (z0 : Int) : Int × Nat × Nat :=
  let z := z0 + 719468
  let era : Int := (if 0 ≤ z then z else z - 146096) / 146097
  let doe : Int := z - era * 146097
  let yoe : Int := (doe - doe / 1460 + doe / 36524 - doe / 146096) / 365
  let y : Int := yoe + era * 400
  let doy : Int := doe - (365 * yoe + yoe / 4 - yoe / 100)
  let mp : Int := (5 * doy + 2) / 153
  let d : Int := doy - (153 * mp + 2) / 5 + 1
  let m : Int := mp + (if mp < 10 then 3 else -9)
  (y + (if m ≤ 2 then 1 else 0), m.toNat, d.toNat)

/-- `(year, month, day)` to days since 1970-01-01. -/
def daysFromCivil (y : Int) (m d : Nat) : Int :=
  let y2 : Int := y - (if m ≤ 2 then 1 else 0)
  let era : Int := (if 0 ≤ y2 then y2 else y2 - 399) / 400
  let yoe : Int := y2 - era * 400
  let mp : Int := (m : Int) + (if 2 < m then -3 else 9)
  let doy : Int := (153 * mp + 2) / 5 + (d : Int) - 1
  let doe : Int := yoe * 365 + yoe / 4 - yoe / 100 + doy
  era * 146097 + doe - 719468

/-- An aware UTC `datetime` value (what `fromtimestamp(_, tz=pytz.UTC)` and
the UTC-converted branches of `transform_animal` produce). -/
structure PyDateTime where
  year : Int
  month : Nat
  day : Nat
  hour : Nat
  minute : Nat
  second : Nat
  micro : Nat
deriving DecidableEq

/-- `datetime.fromtimestamp(secs, tz=pytz.UTC)` at microsecond resolution:
`usec` is the timestamp in whole microseconds since the epoch.  Returns
`none` when the result falls outside `datetime`'s year range 1..9999, in
which case CPython raises (and `transform_animal`'s `try` catches). -/
def py_fromtimestamp_micro (usec : Int) : Option PyDateTime :=
  let days := usec.fdiv 86400000000
  let rem := (usec.fmod 86400000000).toNat
  let c := civilFromDays days
  if 1 ≤ c.1 ∧ c.1 ≤ 9999 then
    some ⟨c.1, c.2.1, c.2.2, rem / 3600000000, rem / 60000000 % 60,
          rem / 1000000 % 60, rem % 1000000⟩
  else Option.none

/-- Zero-padded decimal printing (`%02d`, `%04d`, `%06d`). -/
def padNum (w : Nat) (n : Nat) : String :=
  let s := toString n
  if s.length < w then String.mk (List.replicate (w - s.length) '0') ++ s else s

/-- `datetime.isoformat()` of an aware UTC datetime: the fractional part is
printed (to six digits) only when the microsecond field is non-zero, and the
offset is always the literal `+00:00`. -/
def isoformatUTC (dt : PyDateTime) : String :=
  padNum 4 dt.year.toNat ++ "-" ++ padNum 2 dt.month ++ "-" ++ padNum 2 dt.day ++ "T" ++
  padNum 2 dt.hour ++ ":" ++ padNum 2 dt.minute ++ ":" ++ padNum 2 dt.second ++
  (if dt.micro = 0 then "" else "." ++ padNum 6 dt.micro) ++ "+00:00"

/-! ### `datetime.fromisoformat` (string branch of the `born_at` transform) -/

/-- A parsed ISO-8601 datetime: civil fields plus the explicit offset, in
signed microseconds, when the string carried one (`none` = naive). -/
structure ParsedISO where
  dt : PyDateTime
  offsetMicro : Option Int
deriving DecidableEq

/-- Parse exactly `n` decimal digits. -/
def parseNDigitsAux : Nat → Nat → List Char → Option (Nat × List Char)
  | 0, acc, cs => some (acc, cs)
  | n + 1, acc, cs =>
      match cs with
      | [] => Option.none
      | c :: rest =>
          if c.isDigit then parseNDigitsAux n (acc * 10 + (c.toNat - 48)) rest
          else Option.none

def parseNDigits (n : Nat) (cs : List Char) : Option (Nat × List Char) :=
  parseNDigitsAux n 0 cs

def expectChar (c : Char) : List Char → Option (List Char)
  | [] => Option.none
  | x :: rest => if x = c then some rest else Option.none

/-- Leap year (proleptic Gregorian). -/
def isLeapYear (y : Int) : Bool :=
  (y % 4 = 0 ∧ y % 100 ≠ 0) ∨ y % 400 = 0

def daysInMonth (y : Int) (m : Nat) : Nat :=
  if m = 2 then (if isLeapYear y then 29 else 28)
  else if m = 4 ∨ m = 6 ∨ m = 9 ∨ m = 11 then 30 else 31

/-- Parse the optional fractional-seconds part: `.fff` or `.ffffff`. -/
def parseFraction (cs : List Char) : Option (Nat × List Char) :=
  match cs with
  | '.' :: rest =>
      match parseNDigits 6 rest with
      | some (v, rest2) => some (v, rest2)
      | Option.none =>
          match parseNDigits 3 rest with
          | some (v, rest2) => some (v * 1000, rest2)
          | Option.none => Option.none
  | _ => Option.none

/-- Parse the optional `±HH:MM[:SS[.ffffff]]` offset, consuming the rest
of the string, and return it in signed microseconds (inner `none` means a
naive datetime).  CPython validates the tail length (so the offset
fraction, when present, is exactly six digits) and then builds
`timezone(timedelta(...))`, which accepts any offset whose magnitude is
under 24 hours — the components themselves are not range-checked (an
offset such as `+05:70` is legal). -/
def parseOffset (cs : List Char) : Option (Option Int) :=
  match cs with
  | [] => some Option.none
  | sign :: rest =>
      if sign = '+' ∨ sign = '-' then
        match parseNDigits 2 rest with
        | Option.none => Option.none
        | some (oh, r1) =>
            match expectChar ':' r1 with
            | Option.none => Option.none
            | some r2 =>
                match parseNDigits 2 r2 with
                | Option.none => Option.none
                | some (om, r3) =>
                    let secPart : Option (Nat × Nat) :=
                      match r3 with
                      | [] => some (0, 0)
                      | ':' :: r4 =>
                          match parseNDigits 2 r4 with
                          | some (os, []) => some (os, 0)
                          | some (os, '.' :: r5) =>
                              match parseNDigits 6 r5 with
                              | some (ofr, []) => some (os, ofr)
                              | _ => Option.none
                          | _ => Option.none
                      | _ => Option.none
                    match secPart with
                    | Option.none => Option.none
                    | some (os, ofr) =>
                        let total : Int :=
                          (((oh * 3600 + om * 60 + os) * 1000000 + ofr : Nat) : Int)
                        if total < 86400000000 then
                          some (some ((if sign = '-' then -1 else 1) * total))
                        else Option.none
      else Option.none

/-- Parse the time components `HH[:MM[:SS[.fff|.ffffff]]]` (CPython's
`_parse_hh_mm_ss_ff`): minutes, seconds and the fraction are each
optional, and whatever follows them is left for the offset parser (any
leftover that is not a valid offset makes the whole parse fail, matching
CPython's error on an unexpected separator or a malformed tail). -/
def parseTimeComps (cs : List Char) : Option (Nat × Nat × Nat × Nat × List Char) :=
  match parseNDigits 2 cs with
  | Option.none => Option.none
  | some (hh, r1) =>
      match expectChar ':' r1 with
      | Option.none => some (hh, 0, 0, 0, r1)
      | some r2 =>
          match parseNDigits 2 r2 with
          | Option.none => Option.none
          | some (mi, r3) =>
              match expectChar ':' r3 with
              | Option.none => some (hh, mi, 0, 0, r3)
              | some r4 =>
                  match parseNDigits 2 r4 with
                  | Option.none => Option.none
                  | some (ss, r5) =>
                      match parseFraction r5 with
                      | some (fr, r6) => some (hh, mi, ss, fr, r6)
                      | Option.none => some (hh, mi, ss, 0, r5)

/-- Parse the full time part (components then offset), applying the range
checks the `datetime` constructor performs on the time fields. -/
def parseTimePart (y : Int) (mo d : Nat) (cs : List Char) : Option ParsedISO :=
  match parseTimeComps cs with
  | Option.none => Option.none
  | some (hh, mi, ss, fr, rest) =>
      match parseOffset rest with
      | Option.none => Option.none
      | some off =>
          if hh < 24 ∧ mi < 60 ∧ ss < 60 then
            some ⟨⟨y, mo, d, hh, mi, ss, fr⟩, off⟩
          else Option.none

/-- `datetime.fromisoformat` on the grammar every supported CPython
version (3.7 onward) accepts — the documented pre-3.11 grammar
`YYYY-MM-DD[*HH[:MM[:SS[.fff|.ffffff]]][±HH:MM[:SS[.ffffff]]]]`, with any
single character as date/time separator, which is also exactly the set of
strings `datetime.isoformat` can emit.  `none` is where CPython raises
`ValueError` (caught by `transform_animal`'s `try`); CPython 3.11+
additionally accepts other ISO-8601 forms (e.g. basic-format dates), which
are outside this embedding. -/
def py_fromisoformat (s : String) : Option ParsedISO :=
  match parseNDigits 4 s.data with
  | Option.none => Option.none
  | some (y, r1) =>
      match expectChar '-' r1 with
      | Option.none => Option.none
      | some r2 =>
          match parseNDigits 2 r2 with
          | Option.none => Option.none
          | some (mo, r3) =>
              match expectChar '-' r3 with
              | Option.none => Option.none
              | some r4 =>
                  match parseNDigits 2 r4 with
                  | Option.none => Option.none
                  | some (d, r5) =>
                      if 1 ≤ y ∧ 1 ≤ mo ∧ mo ≤ 12 ∧ 1 ≤ d ∧ d ≤ daysInMonth y mo then
                        match r5 with
                        | [] => some ⟨⟨y, mo, d, 0, 0, 0, 0⟩, Option.none⟩
                        | _ :: timeChars => parseTimePart y mo d timeChars
                      else Option.none

/-- Python `str.replace("Z", "+00:00")`: every occurrence of `Z` anywhere in
the string is replaced. -/
def pyReplaceZAux : List Char → List Char
  | [] => []
  | c :: rest =>
      if c = 'Z' then '+' :: '0' :: '0' :: ':' :: '0' :: '0' :: pyReplaceZAux rest
      else c :: pyReplaceZAux rest

/-- `s.replace("Z", "+00:00")`. -/
def pyReplaceZ (s : String) : String :=
  String.mk (pyReplaceZAux s.data)

/-- Microseconds since the epoch of the civil fields of a datetime read in
UTC. -/
def civilMicro (dt : PyDateTime) : Int :=
  daysFromCivil dt.year dt.month dt.day * 86400000000 +
    (((dt.hour * 3600 + dt.minute * 60 + dt.second) * 1000000 + dt.micro : Nat) : Int)

/-! ### `transform_animal` -/

/-- The body of `transform_animal`'s `try` block for a present, truthy
`born_at` value: `some s` means the field is replaced by the string `s`,
`none` means the original value is left in place (either the
unexpected-format branch where `dt = None`, or an exception caught by the
surrounding `except`).

* `int t`: `if timestamp > 1e10: timestamp = timestamp / 1000` then
  `datetime.fromtimestamp(timestamp, tz=pytz.UTC)` — modelled exactly in
  microseconds (`1e10` is exactly `10^10`, and Python compares int to float
  exactly);
* `str s`: `datetime.fromisoformat(s.replace("Z", "+00:00"))`, then
  `replace(tzinfo=UTC)` when naive or `astimezone(UTC)` when aware
  (the latter can overflow the datetime range, whence the range check);
* any other type: the `else` branch logs and sets `dt = None`. -/
def pyBornTransform (v : PyVal) : Option String :=
  match v with
  | .int t =>
      let usec := if (10 : Int) ^ 10 < t then t * 1000 else t * 1000000
      (py_fromtimestamp_micro usec).map isoformatUTC
  | .str s =>
      match py_fromisoformat (pyReplaceZ s) with
      | Option.none => Option.none
      | some p =>
          match p.offsetMicro with
          | Option.none => some (isoformatUTC p.dt)
          | some off =>
              (py_fromtimestamp_micro (civilMicro p.dt - off)).map isoformatUTC
  | _ => Option.none

/-- Lines 179-186 of `etl_service.py`: the `friends` normalization.  If the
field is present and truthy and a string it is replaced by the
split/strip/filter list; present, truthy and not a string it is left
untouched; absent or falsy it is set to `[]`. -/
def transformFriends (transformed : AnimalRec) : AnimalRec :=
  match pyDictGet transformed "friends" with
  | some v =>
      if pyTruthy v then
        match v with
        | .str s => pySetItem transformed "friends" (.list ((pyFriendsList s).map PyVal.str))
        | _ => transformed
      else pySetItem transformed "friends" (.list [])
  | Option.none => pySetItem transformed "friends" (.list [])

/-- Lines 188-213 of `etl_service.py`: the `born_at` normalization.  The
field is replaced only when it is present, truthy, and the `try` block
produces a datetime; in every other case (including any exception) the
record is returned with the field unchanged. -/
def transformBorn (transformed : AnimalRec) : AnimalRec :=
  match pyDictGet transformed "born_at" with
  | some v =>
      if pyTruthy v then
        match pyBornTransform v with
        | some s => pySetItem transformed "born_at" (.str s)
        | Option.none => transformed
      else transformed
  | Option.none => transformed

/-- `transform_animal` (lines 165-214): copy the record, normalize
`friends`, then normalize `born_at`. -/
def transform_animal (animal : AnimalRec) : AnimalRec :=
  transformBorn (transformFriends animal)

/-! ### Attempt-level model of the retried HTTP operations

`get_animal_details` and `post_animals_batch` are decorated with
`tenacity.retry(stop=stop_after_attempt(5), retry=retry_if_exception_type((RequestException, HTTPError)))`.
Each single attempt maps a transport outcome to either a value or a raised
exception; the decorator then re-runs the attempt while the raised
exception matches the predicate, up to five attempts, and raises
`RetryError` on exhaustion.  Exceptions that do not match the predicate are
re-raised immediately. -/

/-- The exceptions a single attempt of the two operations can surface.
`timeout` is `requests.exceptions.Timeout`, `httpError` is
`requests.exceptions.HTTPError` carrying the response status, `etlError`
is the module's own `ETLError`. -/
inductive ReqExc where
  | timeout
  | httpError (status : Nat)
  | etlError (msg : String)
deriving DecidableEq

/-- The `retry_if_exception_type((RequestException, HTTPError))` predicate:
`Timeout` and `HTTPError` are subclasses of `RequestException`; `ETLError`
subclasses only `Exception`. -/
def isRequestsExceptionType : ReqExc → Bool
  | .timeout => true
  | .httpError _ => true
  | .etlError _ => false

/-- The outcome the transport layer hands one attempt: an HTTP response
with a status and a decoded body, a timeout, or another network-level
failure (connection reset) — the latter surfaces as
`requests.exceptions.ConnectionError`, which is neither `Timeout` nor
`HTTPError`. -/
inductive HttpOutcome (α : Type) where
  | resp (status : Nat) (body : α)
  | timeout
  | connReset

/-- One attempt of `get_animal_details` (lines 143-162): `raise_for_status`
raises `HTTPError` for statuses in [400,600); the handler maps 404 to
`ETLError("Animal {id} not found")`, re-raises the `HTTPError` both for
statuses ≥ 500 and (falling through the `elif`) for every other status;
`Timeout` is re-raised; any other exception (connection reset included) is
wrapped in `ETLError("Failed to fetch animal ...")`. -/
def get_animal_details_attempt (animal_id : Int) (o : HttpOutcome AnimalRec) :
    Except ReqExc AnimalRec :=
  match o with
  | .resp s body =>
      if 400 ≤ s ∧ s < 600 then
        if s = 404 then .error (.etlError ("Animal " ++ toString animal_id ++ " not found"))
        else .error (.httpError s)
      else .ok body
  | .timeout => .error .timeout
  | .connReset => .error (.etlError ("Failed to fetch animal " ++ toString animal_id))

/-- One attempt of `post_animals_batch` together with whether the transport
(`requests.post`) was reached. -/
structure PostAttempt where
  transport_called : Bool
  result : Except ReqExc Nat

/-- One attempt of `post_animals_batch` (lines 235-261): a batch of more
than 100 records raises `ETLError` before any transport call; otherwise the
POST happens, `raise_for_status` raises `HTTPError` for any status in
[400,600) which the handler logs and re-raises unchanged, `Timeout` is
re-raised, and any other failure is wrapped in `ETLError`.  On success the
status code is returned. -/
def post_animals_batch_attempt (batch : List AnimalRec) (o : HttpOutcome Nat) : PostAttempt :=
  if 100 < batch.length then
    ⟨false, .error (.etlError ("Batch size " ++ toString batch.length ++
      " exceeds maximum of 100"))⟩
  else
    match o with
    | .resp s _ =>
        if 400 ≤ s ∧ s < 600 then ⟨true, .error (.httpError s)⟩ else ⟨true, .ok s⟩
    | .timeout => ⟨true, .error .timeout⟩
    | .connReset => ⟨true, .error (.etlError "Failed to post batch")⟩

/-- Result of a `tenacity`-decorated call: success after some number of
attempts, an immediately re-raised non-matching exception, or a
`RetryError` after the stop condition (`stop_after_attempt`). -/
inductive TenacityResult (α : Type) where
  | success (attemptsUsed : Nat) (val : α)
  | raisedDirect (attemptsUsed : Nat) (exc : ReqExc)
  | exhausted (attemptsUsed : Nat) (lastExc : ReqExc)
deriving DecidableEq

/-- The `tenacity` retry loop: `attempt n` is the outcome of the (n+1)-th
attempt; recursion on the remaining attempt budget. -/
def tenacityGo {α : Type} (pred : ReqExc → Bool) (attempt : Nat → Except ReqExc α) :
    Nat → Nat → TenacityResult α
  | used, 0 => .exhausted used (.etlError "stop before first attempt")
  | used, remaining + 1 =>
      match attempt used with
      | .ok v => .success (used + 1) v
      | .error e =>
          if pred e then
            if remaining = 0 then .exhausted (used + 1) e
            else tenacityGo pred attempt (used + 1) remaining
          else .raisedDirect (used + 1) e

/-- A call decorated with `retry(stop=stop_after_attempt(maxAttempts), retry=retry_if_exception(pred))`. -/
def tenacityRun {α : Type} (pred : ReqExc → Bool) (maxAttempts : Nat)
    (attempt : Nat → Except ReqExc α) : TenacityResult α :=
  tenacityGo pred attempt 0 maxAttempts

/-! ### `fetch_paginated_animals` (lines 77-122) -/

/-- One page of the listing endpoint, already shape-checked
(`isinstance(data, dict) and "items" in data`): each item is modelled by
its optional `"id"` field (`item["id"] for item in items if "id" in item`),
and `total_pages` is the page's optional `"total_pages"` field. -/
structure PageData where
  items : List (Option Int)
  total_pages : Option Nat

/-- The ids harvested from one page. -/
def pageIds (pages : Nat → PageData) (p : Nat) : List Int :=
  ((pages p).items).filterMap id

/-- The `while True` pagination loop, fuel-based.  Mirrors the body: read
the page, `total_pages = data.get("total_pages", total_pages)` (a page
without the key keeps the carried value), break before collecting when
`items` is empty, extend the accumulator, then break when
`total_pages and page >= total_pages` (Python truthiness: a carried value
of 0 never triggers the break), else advance to the next page.  `none`
means the fuel ran out (the source loop would still be running). -/
def fetchLoop (pages : Nat → PageData) : Nat → Nat → Option Nat → List Int → Option (List Int)
  | 0, _, _, _ => Option.none
  | fuel + 1, page, tp, acc =>
      let data := pages page
      let tp2 := match data.total_pages with
        | some t => some t
        | Option.none => tp
      if data.items.isEmpty then some acc
      else
        let acc2 := acc ++ pageIds pages page
        match tp2 with
        | some t =>
            if t ≠ 0 ∧ t ≤ page then some acc2
            else fetchLoop pages fuel (page + 1) (some t) acc2
        | Option.none => fetchLoop pages fuel (page + 1) Option.none acc2

/-- `fetch_paginated_animals` on its non-exceptional path: run the loop
from page 1, then `unique_ids = list(set(animal_ids))` — modelled as
`List.dedup` (the Python set iteration order is implementation-defined;
every claim about the result is stated up to the underlying set). -/
def fetch_paginated_animals (pages : Nat → PageData) (fuel : Nat) : Option (List Int) :=
  (fetchLoop pages fuel 1 Option.none []).map List.dedup

/-- The ids of `k` consecutive pages starting at page `start`, concatenated
in fetch order. -/
def consumedIds (pages : Nat → PageData) : Nat → Nat → List Int
  | _, 0 => []
  | start, k + 1 => pageIds pages start ++ consumedIds pages (start + 1) k

/-! ### Run-level model of `run_etl_process` (lines 306-406)

The network is an oracle giving the post-retry outcome of each decorated
call: `fetch_ids` is what `fetch_paginated_animals()` returns or raises,
`detail i` is what `get_animal_details(i)` returns or raises once its
retries are done (an `ETLError`, or tenacity's `RetryError` on
exhaustion), and `post_ok k` is whether the k-th invocation of
`post_animals_batch` ultimately succeeds (`none`) or raises (`some e`).
The batch-size guard (`len(batch) > 100`) is deterministic and modelled
inside `post_batch_result`, before the oracle is consulted. -/

/-- The exceptions observable at the run level. -/
inductive PyExc where
  | etlError (msg : String)
  | httpError (status : Nat)
  | timeout
  | retryError (msg : String)
deriving DecidableEq

/-- `str(e)`. -/
def PyExc.pyStr : PyExc → String
  | .etlError m => m
  | .httpError s => "HTTP error " ++ toString s
  | .timeout => "request timed out"
  | .retryError m => m

/-- `type(e).__name__` (the per-record handler stores `"ETLError"` in its
dedicated branch and the exception's class name in the generic branch; both
are covered by this function). -/
def PyExc.typeName : PyExc → String
  | .etlError _ => "ETLError"
  | .httpError _ => "HTTPError"
  | .timeout => "Timeout"
  | .retryError _ => "RetryError"

/-- The network oracle for one run. -/
structure Env where
  fetch_ids : Except PyExc (List Int)
  detail : Int → Except PyExc AnimalRec
  post_ok : Nat → Option PyExc

/-- `ETLStats` (lines 41-66).  `end_time` is modelled by the flag
`end_time_set`; `complete_calls` counts executions of `ETLStats.complete`
(observable instrumentation for the exactly-once claim); `start_time` and
the timestamp prefixes of error strings are elided. -/
structure ETLStats where
  total_animals_found : Nat
  animals_processed : Nat
  animals_posted : Nat
  batches_posted : Nat
  errors : List String
  end_time_set : Bool
  current_step : String
  complete_calls : Nat
deriving DecidableEq

/-- `ETLStats.reset`. -/
def ETLStats.reset : ETLStats :=
  { total_animals_found := 0, animals_processed := 0, animals_posted := 0,
    batches_posted := 0, errors := [], end_time_set := false,
    current_step := "Initializing", complete_calls := 0 }

/-- `ETLStats.complete` (lines 60-62). -/
def ETLStats.complete (s : ETLStats) : ETLStats :=
  { s with end_time_set := true, current_step := "Completed",
           complete_calls := s.complete_calls + 1 }

/-- One `APIErrorLog.objects.create(...)` row. -/
structure APIErrorEntry where
  endpoint : String
  error_type : String
  error_message : String
deriving DecidableEq

/-- The mutable state of one run: the stats singleton, the emitted
`APIErrorLog` rows, the two pending buffers, the number of
`post_animals_batch` invocations so far (indexing the oracle), and the
`ETLProcessingLog` fields the claims mention. -/
structure RunState where
  stats : ETLStats
  api_error_log : List APIErrorEntry
  posting_batch : List AnimalRec
  db_batch : List (AnimalRec × AnimalRec)
  post_calls : Nat
  log_status : String
  log_process_end_set : Bool

/-- State at `etl_stats.reset()` / `ETLProcessingLog.objects.create(status="running")`. -/
def initialRunState : RunState :=
  { stats := ETLStats.reset, api_error_log := [], posting_batch := [],
    db_batch := [], post_calls := 0, log_status := "running",
    log_process_end_set := false }

/-- The body of the two `except` handlers of the per-record `try`
(lines 366-381): append `"Animal {id}: {e}"` to the stats error list and
create one `APIErrorLog` row; processing continues. -/
def recordAnimalError (st : RunState) (animal_id : Int) (e : PyExc) : RunState :=
  { st with
    stats := { st.stats with
      errors := st.stats.errors ++ ["Animal " ++ toString animal_id ++ ": " ++ e.pyStr] },
    api_error_log := st.api_error_log ++
      [⟨"/animals/v1/animals/" ++ toString animal_id, e.typeName, e.pyStr⟩] }

/-- The outcome of one `post_animals_batch(batch)` invocation: the
oversized-batch `ETLError` fires before the transport; otherwise the
oracle decides whether the retried POST ultimately succeeds. -/
def post_batch_result (env : Env) (k : Nat) (batch : List AnimalRec) : Except PyExc Unit :=
  if 100 < batch.length then
    .error (.etlError ("Batch size " ++ toString batch.length ++ " exceeds maximum of 100"))
  else
    match env.post_ok k with
    | Option.none => .ok ()
    | some e => .error e

/-- The body of the `for` loop over `all_ids` (lines 340-381) for one
identifier.  On a detail failure the per-record handler runs.  On success
the record is transformed, both buffers grow, `animals_processed` is
incremented, and — when the pending batch has reached `batch_size` — the
step label is set and `post_animals_batch` is invoked: on success the
posted counters grow and both buffers are cleared (`save_animals_to_db` is
external I/O); on failure the exception is caught by the same per-record
handlers (`except ETLError` / `except Exception`), logged against the
current identifier, and both buffers are left as they are. -/
def stepRecord (env : Env) (batch_size : Nat) (st : RunState) (animal_id : Int) : RunState :=
  match env.detail animal_id with
  | .error e => recordAnimalError st animal_id e
  | .ok raw =>
      let transformed := transform_animal raw
      let st1 : RunState :=
        { st with
          posting_batch := st.posting_batch ++ [transformed],
          db_batch := st.db_batch ++ [(raw, transformed)],
          stats := { st.stats with animals_processed := st.stats.animals_processed + 1 } }
      if batch_size ≤ st1.posting_batch.length then
        let st2 : RunState :=
          { st1 with stats := { st1.stats with
              current_step := "Posting batch " ++ toString (st1.stats.batches_posted + 1) } }
        match post_batch_result env st2.post_calls st2.posting_batch with
        | .ok _ =>
            { st2 with
              stats := { st2.stats with
                batches_posted := st2.stats.batches_posted + 1,
                animals_posted := st2.stats.animals_posted + st2.posting_batch.length },
              posting_batch := [], db_batch := [],
              post_calls := st2.post_calls + 1 }
        | .error e =>
            recordAnimalError { st2 with post_calls := st2.post_calls + 1 } animal_id e
      else st1

/-- Lines 400-404: the run log's totals and `process_end` are written and
saved (reached both on the success path and through the outer `except`, but
not by the empty-identifier early return). -/
def finalizeLog (st : RunState) : RunState :=
  { st with log_process_end_set := true }

/-- The outer `except Exception` handler (lines 394-398). -/
def fatalFailure (st : RunState) (e : PyExc) : RunState :=
  { st with
    stats := { st.stats with
      errors := st.stats.errors ++ ["Process failed: " ++ e.pyStr],
      current_step := "Failed" },
    log_status := "failed" }

/-- Lines 383-398: the tail of the run once the identifier loop has
finished in state `st3`.  If no records are pending, `etl_stats.complete()`
runs and the log status is derived from the error list; otherwise the final
batch is posted: on success the posted counters grow, the buffers clear and
completion proceeds as above, while on failure the exception propagates to
the outer handler, which records `"Process failed: ..."`, sets the step to
`Failed` and the log status to `failed`.  Lines 400-404 (`finalizeLog`)
run in all of these cases. -/
def runFinish (env : Env) (st3 : RunState) : RunState :=
  if st3.posting_batch.isEmpty then
    finalizeLog
      { st3 with
        stats := st3.stats.complete,
        log_status := (if st3.stats.errors.isEmpty then "completed" else "partial") }
  else
    let st4 : RunState :=
      { st3 with stats := { st3.stats with current_step := "Posting final batch" } }
    match post_batch_result env st4.post_calls st4.posting_batch with
    | .ok _ =>
        let st5 : RunState :=
          { st4 with
            stats := { st4.stats with
              batches_posted := st4.stats.batches_posted + 1,
              animals_posted := st4.stats.animals_posted + st4.posting_batch.length },
            posting_batch := [], db_batch := [],
            post_calls := st4.post_calls + 1 }
        finalizeLog
          { st5 with
            stats := st5.stats.complete,
            log_status := (if st5.stats.errors.isEmpty then "completed" else "partial") }
    | .error e =>
        finalizeLog (fatalFailure { st4 with post_calls := st4.post_calls + 1 } e)

/-- `run_etl_process(batch_size)` (lines 306-406): reset, fetch and
deduplicate the identifiers (a fetch failure is caught only by the outer
handler and is run-fatal), return early on an empty set, iterate the
per-record loop over every identifier, then run the finish (`runFinish`):
final flush, completion, log status. -/
def run_etl_process (env : Env) (batch_size : Nat) : RunState :=
  let st0 : RunState :=
    { initialRunState with stats :=
        { initialRunState.stats with current_step := "Fetching animal IDs" } }
  match env.fetch_ids with
  | .error e => finalizeLog (fatalFailure st0 e)
  | .ok ids0 =>
      let all_ids := ids0.dedup
      let st1 : RunState :=
        { st0 with stats := { st0.stats with total_animals_found := all_ids.length } }
      if all_ids.isEmpty then
        { st1 with
          stats := { st1.stats with current_step := "No data found" },
          log_status := "completed", log_process_end_set := true }
      else
        let st2 : RunState :=
          { st1 with stats := { st1.stats with current_step := "Processing animals" } }
        runFinish env (all_ids.foldl (stepRecord env batch_size) st2)

/-! ### Concrete environments used by the closed theorems -/

/-- A minimal detail record: `{"id": aid}`. -/
def recOf (aid : Int) : AnimalRec := [("id", PyVal.int aid)]

/-- Two identifiers, batch size 1: the first invocation of
`post_animals_batch` fails permanently (retries exhausted, `RetryError`),
every later one succeeds. -/
def envMidFlushFail : Env :=
  { fetch_ids := .ok [1, 2],
    detail := fun aid => .ok (recOf aid),
    post_ok := fun k =>
      if k = 0 then some (.retryError "batch POST failed with 503 on all 5 attempts")
      else Option.none }

/-- Identifiers `[1,2,3]`; the detail fetch for `2` returns 404 (surfaced
as `ETLError("Animal 2 not found")`); everything else succeeds. -/
def envDetail404 : Env :=
  { fetch_ids := .ok [1, 2, 3],
    detail := fun aid =>
      if aid = 2 then .error (.etlError "Animal 2 not found") else .ok (recOf aid),
    post_ok := fun _ => Option.none }

/-- The identifier fetch itself fails permanently. -/
def envFetchFail : Env :=
  { fetch_ids := .error (.etlError "Unexpected API response structure on page 1"),
    detail := fun _ => .ok [],
    post_ok := fun _ => Option.none }

/-- One identifier; every batch POST fails permanently. -/
def envAllPostsFail : Env :=
  { fetch_ids := .ok [7],
    detail := fun aid => .ok (recOf aid),
    post_ok := fun _ => some (.retryError "batch POST failed with 503 on all 5 attempts") }

/-- A concrete paginated source: page 1 carries ids `[1, 2, 1]` (with a
repeat) and no `total_pages`; page 2 is empty. -/
def pagesTwoThenEmpty : Nat → PageData := fun p =>
  if p = 1 then ⟨[some 1, some 2, some 1], Option.none⟩ else ⟨[], Option.none⟩

/-! ### Sanity checks of the embedding on concrete inputs -/

example : pyFriendsList "Max,Luna,Charlie" = ["Max", "Luna", "Charlie"] := by decide

example : pyFriendsList " Max , Luna ,, " = ["Max", "Luna"] := by decide

example :
    pyBornTransform (.int 1609459200) = some "2021-01-01T00:00:00+00:00" := by decide

example :
    pyBornTransform (.int 1609459200000) = some "2021-01-01T00:00:00+00:00" := by decide

example : pyBornTransform (.int 0) = some "1970-01-01T00:00:00+00:00" := by decide

example : pyBornTransform (.str "2021-01-01T00:00:00Z") = some "2021-01-01T00:00:00+00:00" := by
  decide

example : pyBornTransform (.str "garbage") = Option.none := by decide

example : pyBornTransform (.str "2021-01-01T05:30:00+05:30") = some "2021-01-01T00:00:00+00:00" := by
  decide

example : pyBornTransform (.str "2021-01-01T00") = some "2021-01-01T00:00:00+00:00" := by decide

example : pyBornTransform (.str "2021-01-01T05+05:00") = some "2021-01-01T00:00:00+00:00" := by
  decide

example :
    pyBornTransform (.str "2021-01-01T00:00:00+05:30:00") = some "2020-12-31T18:30:00+00:00" := by
  decide

example :
    pyBornTransform (.str "2021-01-01T00:00:00+00:00:00.500000") =
      some "2020-12-31T23:59:59.500000+00:00" := by
  decide

example : pyBornTransform (.str "2021-01-01T00:00:00+05:70") =
    some "2020-12-31T17:50:00+00:00" := by decide

example : pyBornTransform (.str "2021-01-01T00:00:00+25:00") = Option.none := by decide

example : pyBornTransform (.str "2021-01-01T00:00:00+05:30:00.123") = Option.none := by decide

example : pyBornTransform (.str "2021-01-01T24:00:00") = Option.none := by decide



example : (run_etl_process envMidFlushFail 1).log_status = "partial" := rfl
example : (run_etl_process envMidFlushFail 1).stats.current_step = "Completed" := rfl
example : (run_etl_process envMidFlushFail 1).stats.errors =
    ["Animal 1: batch POST failed with 503 on all 5 attempts"] := rfl
example : (run_etl_process envMidFlushFail 1).stats.animals_posted = 2 := rfl
example : (run_etl_process envMidFlushFail 1).stats.animals_processed = 2 := rfl
example : (run_etl_process envMidFlushFail 1).stats.batches_posted = 1 := rfl

example : (run_etl_process envDetail404 100).log_status = "partial" := rfl
example : (run_etl_process envDetail404 100).stats.errors = ["Animal 2: Animal 2 not found"] := rfl
example : (run_etl_process envDetail404 100).api_error_log =
    [⟨"/animals/v1/animals/2", "ETLError", "Animal 2 not found"⟩] := rfl
example : (run_etl_process envDetail404 100).stats.animals_posted = 2 := rfl
example : (run_etl_process envDetail404 100).stats.animals_processed = 2 := rfl
example : (run_etl_process envDetail404 100).stats.batches_posted = 1 := rfl
example : (run_etl_process envDetail404 100).stats.current_step = "Completed" := rfl

example : (run_etl_process envFetchFail 100).stats.current_step = "Failed" := rfl
example : (run_etl_process envFetchFail 100).stats.end_time_set = false := rfl
example : (run_etl_process envFetchFail 100).stats.complete_calls = 0 := rfl
example : (run_etl_process envFetchFail 100).log_status = "failed" := rfl

example : (run_etl_process envAllPostsFail 100).log_status = "failed" := rfl
example : (run_etl_process envAllPostsFail 100).stats.current_step = "Failed" := rfl
example : (run_etl_process envAllPostsFail 100).stats.animals_posted = 0 := rfl
example : (run_etl_process envAllPostsFail 100).stats.animals_processed = 1 := rfl
example : (run_etl_process envAllPostsFail 100).stats.end_time_set = false := rfl

/-! ### Helper lemmas on the record operations -/

theorem pyDictGet_pySetItem_eq (r : AnimalRec) (k : String) (v : PyVal) :
    pyDictGet (pySetItem r k v) k = some v := by
  induction r with
  | nil => simp [pySetItem, pyDictGet]
  | cons p rest ih =>
      obtain ⟨k0, v0⟩ := p
      by_cases h : k0 = k
      · simp [pySetItem, pyDictGet, h]
      · simp [pySetItem, pyDictGet, h, ih]

theorem pyDictGet_pySetItem_ne (r : AnimalRec) (k1 k2 : String) (v : PyVal)
    (h : k1 ≠ k2) : pyDictGet (pySetItem r k1 v) k2 = pyDictGet r k2 := by
  induction r with
  | nil => simp [pySetItem, pyDictGet, h]
  | cons p rest ih =>
      obtain ⟨k0, v0⟩ := p
      by_cases h0 : k0 = k1
      · subst h0; simp [pySetItem, pyDictGet, h]
      · simp [pySetItem, pyDictGet, h0, ih]

theorem transformBorn_get_ne (t : AnimalRec) (k : String) (h : k ≠ "born_at") :
    pyDictGet (transformBorn t) k = pyDictGet t k := by
  have hne : "born_at" ≠ k := fun he => h he.symm
  unfold transformBorn
  cases hg : pyDictGet t "born_at" with
  | none => rfl
  | some v =>
      by_cases ht : pyTruthy v
      · cases hb : pyBornTransform v <;>
          simp [ht, hb, pyDictGet_pySetItem_ne t "born_at" k _ hne]
      · simp [ht]

theorem pyFriendsList_eq_spec (s : String) : pyFriendsList s = specFriendsSeq s := by
  unfold pyFriendsList specFriendsSeq
  induction pySplitComma s with
  | nil => simp
  | cons a l ih =>
      by_cases h : pyStrip a = "" <;>
      · simp [List.filter_cons, List.map_cons, h]
        simpa using ih

theorem dropWhileHeadFalse (p : Char → Bool) :
    ∀ (l : List Char) (c : Char) (cs : List Char), l.dropWhile p = c :: cs → p c = false := by
  intro l
  induction l with
  | nil => intro c cs h; simp at h
  | cons a t ih =>
      intro c cs h
      rw [List.dropWhile_cons] at h
      by_cases hp : p a
      · exact ih c cs (by simpa [hp] using h)
      · have ha : a = c := by
          simp [hp] at h
          exact h.1
        subst ha
        simpa using hp

theorem pyStripList_not_all_space (l : List Char) (h : pyStripList l ≠ []) :
    ∃ c ∈ pyStripList l, pyIsSpace c = false := by
  obtain ⟨m, hm⟩ : ∃ m, (l.dropWhile pyIsSpace).reverse.dropWhile pyIsSpace = m := ⟨_, rfl⟩
  cases m with
  | nil => exact absurd (by unfold pyStripList; rw [hm]; rfl) h
  | cons d ds =>
      refine ⟨d, ?_, dropWhileHeadFalse pyIsSpace _ d ds hm⟩
      unfold pyStripList
      rw [hm]
      simp

theorem pyStrip_nonempty_not_all_space (f : String) (h : pyStrip f ≠ "") :
    ∃ c ∈ (pyStrip f).data, pyIsSpace c = false := by
  have hl : pyStripList f.data ≠ [] := by
    intro hd
    apply h
    unfold pyStrip
    rw [hd]
  exact pyStripList_not_all_space f.data hl

/-! ### C4 — friends normalization -/

/-- C4: for every record whose `friends` field is a non-empty string,
`transform_animal` replaces it by the sequence obtained by splitting on
commas, trimming whitespace around each piece and dropping the pieces that
are empty after trimming, in order (the spec-side `specFriendsSeq`); if the
field is absent or the empty string, the resulting field is the empty
sequence; and no element of the result is empty or whitespace-only. -/
theorem C4_friends_normalization (r : AnimalRec) (s : String) :
    (pyDictGet r "friends" = some (PyVal.str s) → s ≠ "" →
      pyDictGet (transform_animal r) "friends" =
        some (PyVal.list ((specFriendsSeq s).map PyVal.str)) ∧
      ∀ x ∈ specFriendsSeq s, x ≠ "" ∧ ∃ c ∈ x.data, pyIsSpace c = false) ∧
    ((pyDictGet r "friends" = Option.none ∨ pyDictGet r "friends" = some (PyVal.str "")) →
      pyDictGet (transform_animal r) "friends" = some (PyVal.list [])) := by
  constructor
  · intro hg hs
    constructor
    · have ht : pyTruthy (PyVal.str s) = true := by simp [pyTruthy, hs]
      unfold transform_animal
      rw [transformBorn_get_ne _ _ (by decide)]
      unfold transformFriends
      rw [hg]
      simp [ht, pyDictGet_pySetItem_eq, pyFriendsList_eq_spec]
    · intro x hx
      unfold specFriendsSeq at hx
      rw [List.mem_filter] at hx
      obtain ⟨hmem, hne⟩ := hx
      have hne2 : x ≠ "" := by simpa using hne
      obtain ⟨f, _, hf⟩ := List.mem_map.mp hmem
      subst hf
      exact ⟨hne2, pyStrip_nonempty_not_all_space f hne2⟩
  · intro hcase
    unfold transform_animal
    rw [transformBorn_get_ne _ _ (by decide)]
    unfold transformFriends
    rcases hcase with hno | hempty
    · rw [hno]
      exact pyDictGet_pySetItem_eq r "friends" (PyVal.list [])
    · rw [hempty]
      have ht : pyTruthy (PyVal.str "") = false := by decide
      simp [ht, pyDictGet_pySetItem_eq]

/-- C4 witness: the theorem applied to a concrete record whose friends
string carries surrounding whitespace and empty pieces. -/
theorem C4_witness :
    pyDictGet (transform_animal [("friends", PyVal.str " Max , Luna ,, ")]) "friends" =
      some (PyVal.list ((specFriendsSeq " Max , Luna ,, ").map PyVal.str)) ∧
    ∀ x ∈ specFriendsSeq " Max , Luna ,, ", x ≠ "" ∧ ∃ c ∈ x.data, pyIsSpace c = false :=
  (C4_friends_normalization [("friends", PyVal.str " Max , Luna ,, ")] " Max , Luna ,, ").1
    rfl (by decide)

/-! ### C3 — born_at integer timestamps -/

/-- C2 counterexample: an HTTP 400 response on the detail fetch is
re-raised as `HTTPError`, which the decorator's
`retry_if_exception_type((RequestException, HTTPError))` predicate accepts,
so the call is retried until the 5-attempt stop fires and `RetryError` is
raised — not surfaced immediately with no retry attempt as the claim
states. -/
theorem C2_counterexample_400_retried :
    tenacityRun isRequestsExceptionType 5
      (fun _ => get_animal_details_attempt 1 (.resp 400 (recOf 1))) =
    .exhausted 5 (.httpError 400) := rfl

/-- C2 (amended): on the detail fetch, an HTTP error status is mapped to a
non-retryable `ETLError` exactly when it is 404; every other status in
[400, 600) — 4xx included — is re-raised as `HTTPError`, which the retry
predicate accepts, so it is retried just like a 5xx; a timeout is retried;
a connection-level failure is wrapped into `ETLError` and not retried.  On
the batch post every HTTP error status in [400, 600), 4xx included, is
re-raised and retried. -/
theorem C2_retry_classification_amended (s : Nat) (aid : Int) (r : AnimalRec)
    (batch : List AnimalRec)
    (h4 : 400 ≤ s) (h6 : s < 600) (hb : batch.length ≤ 100) :
    (∃ e, get_animal_details_attempt aid (.resp s r) = .error e ∧
      isRequestsExceptionType e = decide (s ≠ 404)) ∧
    (∃ e, (post_animals_batch_attempt batch (.resp s 0)).result = .error e ∧
      isRequestsExceptionType e = true) ∧
    (get_animal_details_attempt aid .timeout = .error .timeout ∧
      isRequestsExceptionType .timeout = true) ∧
    (∃ m, get_animal_details_attempt aid .connReset = .error (.etlError m) ∧
      isRequestsExceptionType (.etlError m) = false) := by
  have hcond : 400 ≤ s ∧ s < 600 := ⟨h4, h6⟩
  refine ⟨?_, ?_, ⟨rfl, rfl⟩, ⟨_, rfl, rfl⟩⟩
  · by_cases h404 : s = 404
    · subst h404
      exact ⟨.etlError ("Animal " ++ toString aid ++ " not found"), rfl, rfl⟩
    · refine ⟨.httpError s, ?_, by simp [isRequestsExceptionType, h404]⟩
      simp [get_animal_details_attempt, hcond, h404]
  · refine ⟨.httpError s, ?_, rfl⟩
    have hnb : ¬ (100 < batch.length) := by omega
    simp [post_animals_batch_attempt, hnb, hcond]

/-- C2 witness: the amended classification evaluated at status 400 with a
concrete record and an empty batch. -/
theorem C2_witness :
    (∃ e, get_animal_details_attempt 1 (.resp 400 (recOf 1)) = .error e ∧
      isRequestsExceptionType e = decide ((400 : Nat) ≠ 404)) ∧
    (∃ e, (post_animals_batch_attempt [] (.resp 400 0)).result = .error e ∧
      isRequestsExceptionType e = true) ∧
    (get_animal_details_attempt 1 .timeout = .error .timeout ∧
      isRequestsExceptionType .timeout = true) ∧
    (∃ m, get_animal_details_attempt 1 .connReset = .error (.etlError m) ∧
      isRequestsExceptionType (.etlError m) = false) :=
  C2_retry_classification_amended 400 1 (recOf 1) [] (by decide) (by decide) (by decide)

/-! ### C8 — batch-size guard of `post_animals_batch` -/

/-- C8: a batch of exactly 100 records reaches the transport call, while a
batch of 101 records raises `ETLError("Batch size 101 exceeds maximum of
100")` before any transport call, and that exception does not match the
retry predicate, so no retry happens. -/
theorem C8_batch_size_guard (b100 b101 : List AnimalRec) (o : HttpOutcome Nat)
    (h100 : b100.length = 100) (h101 : b101.length = 101) :
    (post_animals_batch_attempt b100 o).transport_called = true ∧
    (post_animals_batch_attempt b101 o).transport_called = false ∧
    (post_animals_batch_attempt b101 o).result =
      .error (.etlError "Batch size 101 exceeds maximum of 100") ∧
    isRequestsExceptionType (.etlError "Batch size 101 exceeds maximum of 100") = false := by
  have hno : ¬ (100 < b100.length) := by omega
  have hyes : 100 < b101.length := by omega
  refine ⟨?_, ?_, ?_, rfl⟩
  · unfold post_animals_batch_attempt
    rw [if_neg hno]
    cases o with
    | resp s body => by_cases h : 400 ≤ s ∧ s < 600 <;> simp [h]
    | timeout => rfl
    | connReset => rfl
  · unfold post_animals_batch_attempt
    rw [if_pos hyes]
  · unfold post_animals_batch_attempt
    rw [if_pos hyes, h101]
    rfl

/-- C8 witness: the guard evaluated on concrete batches of 100 and 101
empty records. -/
theorem C8_witness :
    (post_animals_batch_attempt (List.replicate 100 []) (.resp 200 200)).transport_called = true ∧
    (post_animals_batch_attempt (List.replicate 101 []) (.resp 200 200)).transport_called = false ∧
    (post_animals_batch_attempt (List.replicate 101 []) (.resp 200 200)).result =
      .error (.etlError "Batch size 101 exceeds maximum of 100") ∧
    isRequestsExceptionType (.etlError "Batch size 101 exceeds maximum of 100") = false :=
  C8_batch_size_guard (List.replicate 100 []) (List.replicate 101 []) (.resp 200 200)
    (by simp) (by simp)

/-! ### C5 — pagination termination and result -/

/-- The pagination loop terminates when some reachable page is empty or
declares through its own `total_pages` field that it is at or past the
last page, and it returns the accumulator extended with the ids of the
pages it consumed, in fetch order. -/
theorem fetchLoop_terminates (pages : Nat → PageData) (N : Nat)
    (hN : (pages N).items.isEmpty = true ∨
          ∃ t, (pages N).total_pages = some t ∧ 0 < t ∧ t ≤ N) :
    ∀ (fuel page : Nat) (tp : Option Nat) (acc : List Int),
      page ≤ N → N + 1 ≤ page + fuel →
      ∃ k, fetchLoop pages fuel page tp acc = some (acc ++ consumedIds pages page k) := by
  intro fuel
  induction fuel with
  | zero =>
      intro page tp acc hpage hfuel
      omega
  | succ fuel ih =>
      intro page tp acc hpage hfuel
      by_cases hempty : (pages page).items.isEmpty
      · exact ⟨0, by simp [fetchLoop, hempty, consumedIds]⟩
      · cases htp : (pages page).total_pages with
        | some t =>
            by_cases hcond : t ≠ 0 ∧ t ≤ page
            · refine ⟨1, ?_⟩
              simp [fetchLoop, hempty, htp, hcond, consumedIds]
            · have hpn : page < N := by
                rcases Nat.lt_or_ge page N with h | h
                · exact h
                · exfalso
                  have he : page = N := by omega
                  subst he
                  rcases hN with hemp | ⟨t2, htp2, ht2a, ht2b⟩
                  · exact hempty hemp
                  · rw [htp] at htp2
                    injection htp2 with he2
                    subst he2
                    exact hcond ⟨by omega, ht2b⟩
              obtain ⟨k, hk⟩ := ih (page + 1) (some t) (acc ++ pageIds pages page)
                (by omega) (by omega)
              refine ⟨k + 1, ?_⟩
              simp [fetchLoop, hempty, htp, hcond, hk, consumedIds]
        | none =>
            have hpn : page < N := by
              rcases Nat.lt_or_ge page N with h | h
              · exact h
              · exfalso
                have he : page = N := by omega
                subst he
                rcases hN with hemp | ⟨t2, htp2, _, _⟩
                · exact hempty hemp
                · rw [htp] at htp2
                  exact Option.noConfusion htp2
            cases tp with
            | none =>
                obtain ⟨k, hk⟩ := ih (page + 1) Option.none (acc ++ pageIds pages page)
                  (by omega) (by omega)
                refine ⟨k + 1, ?_⟩
                simp [fetchLoop, hempty, htp, hk, consumedIds]
            | some t0 =>
                by_cases hcond : t0 ≠ 0 ∧ t0 ≤ page
                · refine ⟨1, ?_⟩
                  simp [fetchLoop, hempty, htp, hcond, consumedIds]
                · obtain ⟨k, hk⟩ := ih (page + 1) (some t0) (acc ++ pageIds pages page)
                    (by omega) (by omega)
                  refine ⟨k + 1, ?_⟩
                  simp [fetchLoop, hempty, htp, hcond, hk, consumedIds]

/-- C5: when some page returns an empty items list, or its `total_pages`
marks it as the last, the identifier fetch starting at page 1 terminates
and returns exactly the ids of the pages it consumed, deduplicated across
pages (as a set: the union of the fetched pages' ids). -/
theorem C5_fetch_terminates_dedup (pages : Nat → PageData) (N fuel : Nat)
    (hN1 : 1 ≤ N)
    (hterm : (pages N).items.isEmpty = true ∨
             ∃ t, (pages N).total_pages = some t ∧ 0 < t ∧ t ≤ N)
    (hfuel : N ≤ fuel) :
    ∃ k ids, fetch_paginated_animals pages fuel = some ids ∧
      ids.Nodup ∧ ids.toFinset = (consumedIds pages 1 k).toFinset := by
  obtain ⟨k, hk⟩ := fetchLoop_terminates pages N hterm fuel 1 Option.none [] hN1 (by omega)
  refine ⟨k, (consumedIds pages 1 k).dedup, ?_, List.nodup_dedup _, ?_⟩
  · unfold fetch_paginated_animals
    rw [hk]
    simp
  · ext a
    simp [List.mem_toFinset, List.mem_dedup]

/-- C5 witness: a source whose first page repeats an id and whose second
page is empty; the loop stops and the result is the deduplicated union. -/
theorem C5_witness :
    ∃ k ids, fetch_paginated_animals pagesTwoThenEmpty 2 = some ids ∧
      ids.Nodup ∧ ids.toFinset = (consumedIds pagesTwoThenEmpty 1 k).toFinset :=
  C5_fetch_terminates_dedup pagesTwoThenEmpty 2 2 (by decide) (Or.inl (by decide)) (by decide)

/-! ### Run-level helper lemmas -/

theorem post_batch_result_error_of_isSome (env : Env) (k : Nat) (b : List AnimalRec)
    (h : (env.post_ok k).isSome = true) :
    ∃ e, post_batch_result env k b = .error e := by
  unfold post_batch_result
  by_cases hb : 100 < b.length
  · exact ⟨_, by rw [if_pos hb]⟩
  · rw [if_neg hb]
    cases hk : env.post_ok k with
    | none => rw [hk] at h; simp at h
    | some e => exact ⟨e, rfl⟩

theorem stepRecord_preserves_completion (env : Env) (bs : Nat) (st : RunState) (aid : Int) :
    (stepRecord env bs st aid).stats.complete_calls = st.stats.complete_calls ∧
    (stepRecord env bs st aid).stats.end_time_set = st.stats.end_time_set := by
  unfold stepRecord recordAnimalError
  cases env.detail aid with
  | error e => exact ⟨rfl, rfl⟩
  | ok raw =>
      dsimp only
      split
      · split
        · exact ⟨rfl, rfl⟩
        · exact ⟨rfl, rfl⟩
      · exact ⟨rfl, rfl⟩

theorem foldl_preserves_completion (env : Env) (bs : Nat) :
    ∀ (l : List Int) (st : RunState),
      (l.foldl (stepRecord env bs) st).stats.complete_calls = st.stats.complete_calls ∧
      (l.foldl (stepRecord env bs) st).stats.end_time_set = st.stats.end_time_set := by
  intro l
  induction l with
  | nil => intro st; exact ⟨rfl, rfl⟩
  | cons a t ih =>
      intro st
      have h1 := stepRecord_preserves_completion env bs st a
      have h2 := ih (stepRecord env bs st a)
      exact ⟨h2.1.trans h1.1, h2.2.trans h1.2⟩

theorem stepRecord_counts (env : Env) (bs : Nat) (st : RunState) (aid : Int)
    (h : st.stats.animals_posted + st.posting_batch.length ≤ st.stats.animals_processed) :
    (stepRecord env bs st aid).stats.animals_posted +
      (stepRecord env bs st aid).posting_batch.length ≤
      (stepRecord env bs st aid).stats.animals_processed := by
  unfold stepRecord recordAnimalError
  cases env.detail aid with
  | error e => simpa using h
  | ok raw =>
      dsimp only
      split
      · split
        · simp
          omega
        · simp
          omega
      · simp
        omega

theorem foldl_counts (env : Env) (bs : Nat) :
    ∀ (l : List Int) (st : RunState),
      st.stats.animals_posted + st.posting_batch.length ≤ st.stats.animals_processed →
      (l.foldl (stepRecord env bs) st).stats.animals_posted +
        (l.foldl (stepRecord env bs) st).posting_batch.length ≤
        (l.foldl (stepRecord env bs) st).stats.animals_processed := by
  intro l
  induction l with
  | nil => intro st h; exact h
  | cons a t ih =>
      intro st h
      exact ih (stepRecord env bs st a) (stepRecord_counts env bs st a h)

theorem stepRecord_allfail (env : Env) (bs : Nat) (st : RunState) (aid : Int)
    (hpost : ∀ k, (env.post_ok k).isSome = true)
    (hdet : ∃ r, env.detail aid = .ok r) :
    (stepRecord env bs st aid).stats.animals_posted = st.stats.animals_posted ∧
    (stepRecord env bs st aid).stats.batches_posted = st.stats.batches_posted ∧
    (stepRecord env bs st aid).posting_batch.length = st.posting_batch.length + 1 ∧
    (stepRecord env bs st aid).stats.animals_processed = st.stats.animals_processed + 1 := by
  obtain ⟨r, hr⟩ := hdet
  unfold stepRecord
  rw [hr]
  dsimp only
  split
  · obtain ⟨e, he⟩ := post_batch_result_error_of_isSome env st.post_calls
      (st.posting_batch ++ [transform_animal r]) (hpost st.post_calls)
    rw [he]
    simp [recordAnimalError]
  · simp

theorem foldl_allfail (env : Env) (bs : Nat)
    (hpost : ∀ k, (env.post_ok k).isSome = true) :
    ∀ (l : List Int) (st : RunState),
      (∀ i ∈ l, ∃ r, env.detail i = .ok r) →
      (l.foldl (stepRecord env bs) st).stats.animals_posted = st.stats.animals_posted ∧
      (l.foldl (stepRecord env bs) st).stats.batches_posted = st.stats.batches_posted ∧
      (l.foldl (stepRecord env bs) st).posting_batch.length =
        st.posting_batch.length + l.length ∧
      (l.foldl (stepRecord env bs) st).stats.animals_processed =
        st.stats.animals_processed + l.length := by
  intro l
  induction l with
  | nil => intro st _; exact ⟨rfl, rfl, rfl, rfl⟩
  | cons a t ih =>
      intro st hdet
      have h1 := stepRecord_allfail env bs st a hpost (hdet a (by simp))
      have h2 := ih (stepRecord env bs st a) (fun i hi => hdet i (by simp [hi]))
      refine ⟨h2.1.trans h1.1, h2.2.1.trans h1.2.1, ?_, ?_⟩
      · simp only [List.foldl_cons, List.length_cons]
        rw [h2.2.2.1, h1.2.2.1]
        omega
      · simp only [List.foldl_cons, List.length_cons]
        rw [h2.2.2.2, h1.2.2.2]
        omega

theorem runFinish_completion (env : Env) (st3 : RunState)
    (hc : st3.stats.complete_calls = 0) (he : st3.stats.end_time_set = false) :
    (((runFinish env st3).stats.current_step = "Completed" ∧
      (runFinish env st3).stats.end_time_set = true ∧
      (runFinish env st3).stats.complete_calls = 1) ∨
     ((runFinish env st3).stats.current_step = "Failed" ∧
      (runFinish env st3).stats.end_time_set = false ∧
      (runFinish env st3).stats.complete_calls = 0)) ∧
    (runFinish env st3).log_process_end_set = true := by
  unfold runFinish
  split
  · refine ⟨Or.inl ⟨rfl, rfl, ?_⟩, rfl⟩
    simp [finalizeLog, ETLStats.complete, hc]
  · dsimp only
    split
    · refine ⟨Or.inl ⟨rfl, rfl, ?_⟩, rfl⟩
      simp [finalizeLog, ETLStats.complete, hc]
    · refine ⟨Or.inr ⟨rfl, ?_, ?_⟩, rfl⟩
      · simp [finalizeLog, fatalFailure, he]
      · simp [finalizeLog, fatalFailure, hc]

theorem runFinish_fatal (env : Env) (st3 : RunState)
    (hne : st3.posting_batch.isEmpty = false)
    (hpost : (env.post_ok st3.post_calls).isSome = true) :
    (runFinish env st3).log_status = "failed" ∧
    (runFinish env st3).stats.current_step = "Failed" ∧
    (runFinish env st3).stats.animals_posted = st3.stats.animals_posted ∧
    (runFinish env st3).stats.batches_posted = st3.stats.batches_posted ∧
    (runFinish env st3).stats.animals_processed = st3.stats.animals_processed := by
  unfold runFinish
  rw [hne]
  simp only [Bool.false_eq_true, if_false]
  dsimp only
  obtain ⟨e, he⟩ := post_batch_result_error_of_isSome env st3.post_calls st3.posting_batch hpost
  rw [he]
  simp [finalizeLog, fatalFailure]

theorem runFinish_counts (env : Env) (st3 : RunState)
    (h : st3.stats.animals_posted + st3.posting_batch.length ≤ st3.stats.animals_processed) :
    (runFinish env st3).stats.animals_posted ≤ (runFinish env st3).stats.animals_processed := by
  unfold runFinish
  split
  · simp only [finalizeLog, ETLStats.complete]
    omega
  · dsimp only
    split
    · simp only [finalizeLog, ETLStats.complete]
      omega
    · simp only [finalizeLog, fatalFailure]
      omega

/-! ### C6 — partial-failure scenario -/

/-- C6: with identifiers `[1,2,3]` where the detail fetch for `2` fails
with a 404 (`ETLError`) and everything else succeeds, the error is caught:
exactly one error entry referencing identifier 2 is appended to the run's
error log, exactly one external `APIErrorLog` event is emitted, the two
successful records are transformed and posted in one batch, and the run's
terminal status is the partial-success one (`"partial"`, the log value the
spec calls "partially completed"), not `"failed"`. -/
theorem C6_partial_failure_scenario :
    (run_etl_process envDetail404 100).stats.errors = ["Animal 2: Animal 2 not found"] ∧
    (run_etl_process envDetail404 100).api_error_log =
      [⟨"/animals/v1/animals/2", "ETLError", "Animal 2 not found"⟩] ∧
    (run_etl_process envDetail404 100).stats.animals_posted = 2 ∧
    (run_etl_process envDetail404 100).stats.batches_posted = 1 ∧
    (run_etl_process envDetail404 100).stats.animals_processed = 2 ∧
    (run_etl_process envDetail404 100).log_status = "partial" ∧
    (run_etl_process envDetail404 100).log_status ≠ "failed" ∧
    (run_etl_process envDetail404 100).stats.current_step = "Completed" :=
  ⟨rfl, rfl, rfl, rfl, rfl, rfl, by decide, rfl⟩

/-! ### C9 — terminal finalization of the stats -/

/-- C9 counterexample: a run whose identifier fetch fails permanently
enters `Failed` (the step label is set), but `ETLStats.complete` is never
called on that path: the stats end time is not stamped, refuting the claim
that every entry to `Failed` stamps the stats end time. -/
theorem C9_counterexample_failed_no_end_time :
    (run_etl_process envFetchFail 100).stats.current_step = "Failed" ∧
    (run_etl_process envFetchFail 100).stats.end_time_set = false ∧
    (run_etl_process envFetchFail 100).stats.complete_calls = 0 ∧
    (run_etl_process envFetchFail 100).log_status = "failed" :=
  ⟨rfl, rfl, rfl, rfl⟩

/-- C9 (amended): on every run the stats are finalized at most once, and
exactly on the successful-completion path: the step label ends at
`"Completed"` with the end time stamped by the single `ETLStats.complete`
call, or the run ends in `"Failed"` or the no-data `"No data found"` label
with the stats end time never stamped (`complete` never called).  The run
log's `process_end`, by contrast, is stamped on every path. -/
theorem C9_finalization_amended (env : Env) (bs : Nat) :
    (((run_etl_process env bs).stats.current_step = "Completed" ∧
      (run_etl_process env bs).stats.end_time_set = true ∧
      (run_etl_process env bs).stats.complete_calls = 1) ∨
     (((run_etl_process env bs).stats.current_step = "Failed" ∨
       (run_etl_process env bs).stats.current_step = "No data found") ∧
      (run_etl_process env bs).stats.end_time_set = false ∧
      (run_etl_process env bs).stats.complete_calls = 0)) ∧
    (run_etl_process env bs).log_process_end_set = true := by
  unfold run_etl_process
  cases env.fetch_ids with
  | error e => exact ⟨Or.inr ⟨Or.inl rfl, rfl, rfl⟩, rfl⟩
  | ok ids0 =>
      dsimp only
      split
      · exact ⟨Or.inr ⟨Or.inr rfl, rfl, rfl⟩, rfl⟩
      · have hfold := foldl_preserves_completion env bs ids0.dedup
        have key := runFinish_completion env
          (ids0.dedup.foldl (stepRecord env bs)
            { stats :=
                { total_animals_found := ids0.dedup.length, animals_processed := 0,
                  animals_posted := 0, batches_posted := 0, errors := [],
                  end_time_set := false, current_step := "Processing animals",
                  complete_calls := 0 },
              api_error_log := [], posting_batch := [], db_batch := [],
              post_calls := 0, log_status := "running", log_process_end_set := false })
          ((hfold _).1.trans rfl) ((hfold _).2.trans rfl)
        exact ⟨key.1.imp (fun hh => hh) (fun hh => ⟨Or.inl hh.1, hh.2⟩), key.2⟩

/-! ### C1 — fate of a permanently failing batch POST -/

/-- C1 counterexample: with batch size 1 and identifiers `[1,2]`, the first
invocation of `post_animals_batch` fails permanently (retries exhausted),
yet the failure happens inside the processing loop, where the per-record
`except Exception` handler catches it: the run logs it as an error against
identifier 1, keeps the batch buffered, succeeds on the next flush, and
terminates with the partial-success status and step `"Completed"` — not
`"Failed"` as the claim states for every permanent batch-POST failure. -/
theorem C1_counterexample_mid_loop_flush :
    envMidFlushFail.post_ok 0 =
      some (.retryError "batch POST failed with 503 on all 5 attempts") ∧
    (run_etl_process envMidFlushFail 1).stats.errors =
      ["Animal 1: batch POST failed with 503 on all 5 attempts"] ∧
    (run_etl_process envMidFlushFail 1).log_status = "partial" ∧
    (run_etl_process envMidFlushFail 1).log_status ≠ "failed" ∧
    (run_etl_process envMidFlushFail 1).stats.current_step = "Completed" ∧
    (run_etl_process envMidFlushFail 1).stats.animals_posted = 2 :=
  ⟨rfl, rfl, rfl, by decide, rfl, rfl⟩

/-- When every detail fetch succeeds and every batch POST fails, the loop
followed by the finish ends in `Failed`: nothing is ever posted, the batch
buffer holds every processed record, and the final flush failure is fatal. -/
theorem run_allfail_tail (env : Env) (bs : Nat) (l : List Int) (st : RunState)
    (hl : l ≠ [])
    (hdet : ∀ i ∈ l, ∃ r, env.detail i = .ok r)
    (hpost : ∀ k, (env.post_ok k).isSome = true)
    (hposted : st.stats.animals_posted = 0)
    (hbatches : st.stats.batches_posted = 0)
    (hbatch : st.posting_batch = [])
    (hproc : st.stats.animals_processed = 0) :
    (runFinish env (l.foldl (stepRecord env bs) st)).log_status = "failed" ∧
    (runFinish env (l.foldl (stepRecord env bs) st)).stats.current_step = "Failed" ∧
    (runFinish env (l.foldl (stepRecord env bs) st)).stats.animals_posted = 0 ∧
    (runFinish env (l.foldl (stepRecord env bs) st)).stats.batches_posted = 0 ∧
    (runFinish env (l.foldl (stepRecord env bs) st)).stats.animals_processed = l.length ∧
    0 < (runFinish env (l.foldl (stepRecord env bs) st)).stats.animals_processed := by
  have hfold := foldl_allfail env bs hpost l st hdet
  have hlen : (l.foldl (stepRecord env bs) st).posting_batch.length = l.length := by
    rw [hfold.2.2.1, hbatch]
    simp
  have hbne : (l.foldl (stepRecord env bs) st).posting_batch.isEmpty = false := by
    cases hpb : (l.foldl (stepRecord env bs) st).posting_batch with
    | nil =>
        exfalso
        rw [hpb] at hlen
        have h0 : l.length = 0 := by simpa using hlen.symm
        exact hl (List.length_eq_zero.mp h0)
    | cons a t => rfl
  have key := runFinish_fatal env (l.foldl (stepRecord env bs) st) hbne (hpost _)
  refine ⟨key.1, key.2.1, ?_, ?_, ?_, ?_⟩
  · rw [key.2.2.1, hfold.1, hposted]
  · rw [key.2.2.2.1, hfold.2.1, hbatches]
  · rw [key.2.2.2.2, hfold.2.2.2, hproc]
    omega
  · rw [key.2.2.2.2, hfold.2.2.2, hproc]
    have hp := List.length_pos.mpr hl
    omega

/-- C1 (amended): only the final, post-loop flush failure is run-fatal.
When every batch POST fails permanently (so in particular the final flush
fails), the run terminates with log status `"failed"` and step `"Failed"`,
the already-counted processed records are not rolled back (the processed
count equals the number of successfully fetched identifiers and stays
positive), and the posted counters remain zero.  A flush failure inside
the loop, by contrast, is caught by the per-record handler and the run
continues, as the C1 counterexample shows. -/
theorem C1_amended_final_flush_fatal (env : Env) (bs : Nat) (ids : List Int)
    (hfetch : env.fetch_ids = .ok ids)
    (hne : ids.dedup ≠ [])
    (hdet : ∀ i ∈ ids.dedup, ∃ r, env.detail i = .ok r)
    (hpost : ∀ k, (env.post_ok k).isSome = true) :
    (run_etl_process env bs).log_status = "failed" ∧
    (run_etl_process env bs).stats.current_step = "Failed" ∧
    (run_etl_process env bs).stats.animals_posted = 0 ∧
    (run_etl_process env bs).stats.batches_posted = 0 ∧
    (run_etl_process env bs).stats.animals_processed = ids.dedup.length ∧
    0 < (run_etl_process env bs).stats.animals_processed := by
  unfold run_etl_process
  rw [hfetch]
  dsimp only
  have hempF : ids.dedup.isEmpty = false := by
    cases h : ids.dedup with
    | nil => exact absurd h hne
    | cons a t => rfl
  simp only [hempF, Bool.false_eq_true, if_false]
  exact run_allfail_tail env bs ids.dedup _ hne hdet hpost rfl rfl rfl rfl

/-- C1 witness: the amended theorem evaluated on a single identifier whose
batch POST always fails: the run fails, one record was processed, nothing
was posted. -/
theorem C1_witness :
    (run_etl_process envAllPostsFail 100).log_status = "failed" ∧
    (run_etl_process envAllPostsFail 100).stats.current_step = "Failed" ∧
    (run_etl_process envAllPostsFail 100).stats.animals_posted = 0 ∧
    (run_etl_process envAllPostsFail 100).stats.batches_posted = 0 ∧
    (run_etl_process envAllPostsFail 100).stats.animals_processed = ([7] : List Int).dedup.length ∧
    0 < (run_etl_process envAllPostsFail 100).stats.animals_processed :=
  C1_amended_final_flush_fatal envAllPostsFail 100 [7] rfl (by decide)
    (fun i _ => ⟨recOf i, rfl⟩) (fun _ => rfl)

/-! ### C10 — posted never exceeds processed -/

/-- C10: the posted/processed accounting invariant.  First conjunct: one
step of the per-record loop preserves the strengthened invariant
`animals_posted + pending batch length ≤ animals_processed` (so the
inequality `animals_posted ≤ animals_processed` holds at every intermediate
state of the loop, whatever the oracle does).  Second conjunct: the final
stats of every run, for every environment and batch size — completed,
partial or failed — satisfy `animals_posted ≤ animals_processed`. -/
theorem C10_posted_le_processed :
    (∀ (env : Env) (bs : Nat) (st : RunState) (aid : Int),
      st.stats.animals_posted + st.posting_batch.length ≤ st.stats.animals_processed →
      (stepRecord env bs st aid).stats.animals_posted +
        (stepRecord env bs st aid).posting_batch.length ≤
        (stepRecord env bs st aid).stats.animals_processed) ∧
    (∀ (env : Env) (bs : Nat),
      (run_etl_process env bs).stats.animals_posted ≤
        (run_etl_process env bs).stats.animals_processed) := by
  constructor
  · exact stepRecord_counts
  · intro env bs
    unfold run_etl_process
    cases env.fetch_ids with
    | error e => exact Nat.le_refl 0
    | ok ids0 =>
        dsimp only
        split
        · exact Nat.le_refl 0
        · exact runFinish_counts env _
            (foldl_counts env bs ids0.dedup _ (Nat.le_refl 0))

/-- C10 witness: the step-preservation conjunct applied at a concrete state
and the run-level inequality evaluated on a concrete environment. -/
theorem C10_witness :
    ((stepRecord envDetail404 100 initialRunState 1).stats.animals_posted +
      (stepRecord envDetail404 100 initialRunState 1).posting_batch.length ≤
      (stepRecord envDetail404 100 initialRunState 1).stats.animals_processed) ∧
    ((run_etl_process envDetail404 100).stats.animals_posted ≤
      (run_etl_process envDetail404 100).stats.animals_processed) :=
  ⟨C10_posted_le_processed.1 envDetail404 100 initialRunState 1 (by decide),
   C10_posted_le_processed.2 envDetail404 100⟩
